import Mathlib

/-
Verification of the Matching and Claim-Verification subsystem of the
lost-and-found-ai repository. Definitions are shallow embeddings of the
Python source files:
  backend/services/simple_nlp_service.py      (text normalizer, similarity scorer)
  backend/services/simple_matching_service.py (metadata filter, match lifecycle)
  backend/app/app.py                          (claim challenge engine)
  backend/app/app_backup.py                   (confirm/reject match endpoints)
Python floats are modelled exactly: rational arithmetic in the scorer is ℚ,
and the square roots of the cosine measure live in ℝ.
-/

namespace LostFound

/-! ### Text Normalizer (SimpleNLPService.preprocess_text / tokenize) -/

/-- Stop-word set of SimpleNLPService.__init__ (the Python set literal,
duplicates collapsed). -/
def stop_words : List String :=
  ["the", "a", "an", "and", "or", "but", "in", "on", "at", "to", "for", "of",
   "with", "by", "is", "was", "are", "were", "be", "been", "being", "have",
   "has", "had", "do", "does", "did", "will", "would", "should", "could",
   "may", "might", "must", "can", "it", "he", "she", "they", "we", "you",
   "i", "me", "him", "her", "them", "us", "my", "your", "his",
   "their", "our", "this", "that", "these", "those"]

/-- One character of preprocess_text: lowercase, then replace anything that is
not a lowercase ASCII letter by a space (the regex sub of [^a-z\s] composed
with the later whitespace split collapses every non-letter to a separator). -/
def cleanChar (c : Char) : Char :=
  let c := c.toLower
  if c.isLower then c else ' '

/-- Split a character list on spaces, dropping empty runs: the behaviour of
Python str.split() on the cleaned text. -/
def wordsAux : List Char → List Char → List (List Char)
  | [], acc => if acc.isEmpty then [] else [acc.reverse]
  | c :: cs, acc =>
    if c = ' ' then
      (if acc.isEmpty then wordsAux cs [] else acc.reverse :: wordsAux cs [])
    else wordsAux cs (c :: acc)

/-- Word list of the preprocessed text (lowercased, punctuation and digits
stripped, whitespace collapsed). -/
def preprocess_words (s : String) : List String :=
  (wordsAux (s.toList.map cleanChar) []).map (fun w => String.mk w)

/-- SimpleNLPService.preprocess_text. -/
def preprocess_text (s : String) : String :=
  String.intercalate " " (preprocess_words s)

/-- SimpleNLPService.tokenize: preprocessed words minus stop-words and words
of length at most 2. -/
def tokenize (s : String) : List String :=
  (preprocess_words s).filter (fun w => !stop_words.contains w && decide (w.length > 2))

/-! ### Similarity Scorer (SimpleNLPService) -/

/-- Per-comparison term frequency of one term: raw count divided by the token
count of the text (the vector entries built in calculate_tf_idf_similarity). -/
def tf (tokens : List String) (term : String) : ℚ :=
  (tokens.count term : ℚ) / (tokens.length : ℚ)

/-- Term-frequency vector over a vocabulary list. -/
def tf_vector (tokens vocab : List String) : List ℚ :=
  vocab.map (tf tokens)

/-- Squared Euclidean magnitude of a vector, the radicand of the magnitude
computation in SimpleNLPService.cosine_similarity. -/
def magSq (vec : List ℚ) : ℚ :=
  (vec.map (fun a => a * a)).sum

/-- Dot product of SimpleNLPService.cosine_similarity. -/
def dotProd (vec1 vec2 : List ℚ) : ℚ :=
  ((vec1.zip vec2).map (fun p => p.1 * p.2)).sum

open Classical in
/-- SimpleNLPService.cosine_similarity: dot product over the product of the
Euclidean norms, 0 on empty or mismatched vectors or when a norm is 0. -/
noncomputable def cosine_similarity (vec1 vec2 : List ℚ) : ℝ :=
  if vec1 = [] ∨ vec2 = [] ∨ vec1.length ≠ vec2.length then 0
  else if Real.sqrt ((magSq vec1 : ℚ) : ℝ) = 0 ∨ Real.sqrt ((magSq vec2 : ℚ) : ℝ) = 0 then 0
  else ((dotProd vec1 vec2 : ℚ) : ℝ)
       / (Real.sqrt ((magSq vec1 : ℚ) : ℝ) * Real.sqrt ((magSq vec2 : ℚ) : ℝ))

/-- SimpleNLPService.calculate_tf_idf_similarity: cosine of the two
term-frequency vectors over the union vocabulary; 0 if either token list is
empty. -/
noncomputable def calculate_tf_idf_similarity (text1 text2 : String) : ℝ :=
  if tokenize text1 = [] ∨ tokenize text2 = [] then 0
  else if (tokenize text1 ++ tokenize text2).dedup = [] then 0
  else cosine_similarity
    (tf_vector (tokenize text1) ((tokenize text1 ++ tokenize text2).dedup))
    (tf_vector (tokenize text2) ((tokenize text1 ++ tokenize text2).dedup))

/-- SimpleNLPService.calculate_jaccard_similarity: intersection over union of
the two token sets, 1 when both sets are empty, 0 when the union is empty. -/
def calculate_jaccard_similarity (text1 text2 : String) : ℚ :=
  if (tokenize text1).toFinset = ∅ ∧ (tokenize text2).toFinset = ∅ then 1
  else if (tokenize text1).toFinset ∪ (tokenize text2).toFinset = ∅ then 0
  else (((tokenize text1).toFinset ∩ (tokenize text2).toFinset).card : ℚ)
       / (((tokenize text1).toFinset ∪ (tokenize text2).toFinset).card : ℚ)

/-- SimpleNLPService.calculate_similarity: 0 when either input string is
empty (Python truthiness of str), else the fixed weighting
0.7 * cosine + 0.3 * jaccard. -/
noncomputable def calculate_similarity (text1 text2 : String) : ℝ :=
  if text1 = "" ∨ text2 = "" then 0
  else 0.7 * calculate_tf_idf_similarity text1 text2
       + 0.3 * (calculate_jaccard_similarity text1 text2 : ℝ)

/-! ### Basic facts about the scorer -/

theorem tokenize_empty_string : tokenize "" = [] := by decide

theorem ne_empty_of_tokenize_ne_nil {A : String} (h : tokenize A ≠ []) : A ≠ "" := by
  intro hA
  exact h (hA ▸ tokenize_empty_string)

theorem tf_pos {tokens : List String} {w : String} (hw : w ∈ tokens) : 0 < tf tokens w := by
  have hc : 0 < tokens.count w := List.count_pos_iff.mpr hw
  have hl : 0 < tokens.length := List.length_pos.mpr (by rintro rfl; simp at hw)
  exact div_pos (by exact_mod_cast hc) (by exact_mod_cast hl)

theorem dotProd_tf_vector (t1 t2 vocab : List String) :
    dotProd (tf_vector t1 vocab) (tf_vector t2 vocab)
      = (vocab.map (fun w => tf t1 w * tf t2 w)).sum := by
  simp only [dotProd, tf_vector, List.zip_map', List.map_map]
  rfl

theorem magSq_tf_vector (t vocab : List String) :
    magSq (tf_vector t vocab) = (vocab.map (fun w => tf t w * tf t w)).sum := by
  simp only [magSq, tf_vector, List.map_map]
  rfl

theorem magSq_tf_pos {tokens vocab : List String} (hv : vocab ≠ [])
    (hsub : ∀ w ∈ vocab, w ∈ tokens) : 0 < magSq (tf_vector tokens vocab) := by
  rw [magSq_tf_vector]
  refine List.sum_pos _ ?_ (by simpa using hv)
  intro x hx
  rcases List.mem_map.mp hx with ⟨w, hw, rfl⟩
  exact mul_pos (tf_pos (hsub w hw)) (tf_pos (hsub w hw))

theorem cosine_tf_eval (t1 t2 : List String) {v : List String} (hv : v ≠ []) :
    cosine_similarity (tf_vector t1 v) (tf_vector t2 v)
      = if Real.sqrt (((v.map (fun w => tf t1 w * tf t1 w)).sum : ℚ) : ℝ) = 0
           ∨ Real.sqrt (((v.map (fun w => tf t2 w * tf t2 w)).sum : ℚ) : ℝ) = 0 then 0
        else (((v.map (fun w => tf t1 w * tf t2 w)).sum : ℚ) : ℝ)
             / (Real.sqrt (((v.map (fun w => tf t1 w * tf t1 w)).sum : ℚ) : ℝ)
                * Real.sqrt (((v.map (fun w => tf t2 w * tf t2 w)).sum : ℚ) : ℝ)) := by
  rw [cosine_similarity]
  rw [if_neg (by push_neg; exact ⟨by simp [tf_vector, hv], by simp [tf_vector, hv], by simp [tf_vector]⟩)]
  rw [dotProd_tf_vector, magSq_tf_vector, magSq_tf_vector]

theorem cosine_tf_comm (t1 t2 : List String) {v v' : List String} (hp : v.Perm v') :
    cosine_similarity (tf_vector t1 v) (tf_vector t2 v)
      = cosine_similarity (tf_vector t2 v') (tf_vector t1 v') := by
  by_cases hv : v = []
  · have hv' : v' = [] := by
      have h := hp.length_eq
      rw [hv] at h
      exact List.length_eq_zero.mp h.symm
    subst hv; subst hv'
    simp [cosine_similarity, tf_vector]
  · have hv' : v' ≠ [] := by
      intro h
      apply hv
      have hl := hp.length_eq
      rw [h] at hl
      exact List.length_eq_zero.mp hl
    rw [cosine_tf_eval t1 t2 hv, cosine_tf_eval t2 t1 hv']
    have e12 : (v'.map (fun w => tf t2 w * tf t1 w)).sum
        = (v.map (fun w => tf t1 w * tf t2 w)).sum := by
      rw [List.map_congr_left (l := v') (f := fun w => tf t2 w * tf t1 w)
        (g := fun w => tf t1 w * tf t2 w) (fun w _ => mul_comm _ _)]
      exact ((hp.map (fun w => tf t1 w * tf t2 w)).sum_eq).symm
    have e22 : (v'.map (fun w => tf t2 w * tf t2 w)).sum
        = (v.map (fun w => tf t2 w * tf t2 w)).sum :=
      ((hp.map (fun w => tf t2 w * tf t2 w)).sum_eq).symm
    have e11 : (v'.map (fun w => tf t1 w * tf t1 w)).sum
        = (v.map (fun w => tf t1 w * tf t1 w)).sum :=
      ((hp.map (fun w => tf t1 w * tf t1 w)).sum_eq).symm
    rw [e12, e22, e11]
    by_cases hz : Real.sqrt (((v.map (fun w => tf t1 w * tf t1 w)).sum : ℚ) : ℝ) = 0
        ∨ Real.sqrt (((v.map (fun w => tf t2 w * tf t2 w)).sum : ℚ) : ℝ) = 0
    · rw [if_pos hz, if_pos hz.symm]
    · rw [if_neg hz, if_neg (fun hc => hz hc.symm)]
      rw [mul_comm]

theorem vocab_perm_comm (t1 t2 : List String) :
    ((t1 ++ t2).dedup).Perm ((t2 ++ t1).dedup) := by
  rw [List.perm_ext_iff_of_nodup (List.nodup_dedup _) (List.nodup_dedup _)]
  intro a
  simp [List.mem_dedup, List.mem_append, or_comm]

theorem tf_idf_symm (t1 t2 : String) :
    calculate_tf_idf_similarity t1 t2 = calculate_tf_idf_similarity t2 t1 := by
  rw [calculate_tf_idf_similarity, calculate_tf_idf_similarity]
  by_cases h : tokenize t1 = [] ∨ tokenize t2 = []
  · rw [if_pos h, if_pos h.symm]
  · rw [if_neg h]
    push_neg at h
    have hd1 : (tokenize t1 ++ tokenize t2).dedup ≠ [] := by
      simp [List.dedup_eq_nil, h.1]
    have hd2 : (tokenize t2 ++ tokenize t1).dedup ≠ [] := by
      simp [List.dedup_eq_nil, h.2]
    rw [if_neg hd1]
    rw [if_neg (show ¬(tokenize t2 = [] ∨ tokenize t1 = []) from
      fun hc => hc.elim (fun e => h.2 e) (fun e => h.1 e))]
    rw [if_neg hd2]
    exact cosine_tf_comm _ _ (vocab_perm_comm (tokenize t1) (tokenize t2))

theorem jaccard_symm (t1 t2 : String) :
    calculate_jaccard_similarity t1 t2 = calculate_jaccard_similarity t2 t1 := by
  rw [calculate_jaccard_similarity, calculate_jaccard_similarity]
  rw [if_congr (and_comm) rfl rfl, Finset.union_comm, Finset.inter_comm]

theorem calculate_similarity_symm (A B : String) :
    calculate_similarity A B = calculate_similarity B A := by
  rw [calculate_similarity, calculate_similarity]
  rw [if_congr (or_comm) rfl rfl, tf_idf_symm, jaccard_symm]

theorem calculate_similarity_self {A : String} (hA : tokenize A ≠ []) :
  calculate_similarity A A = 1 := by
  have hAe : A ≠ "" := ne_empty_of_tokenize_ne_nil hA
  have htf : calculate_tf_idf_similarity A A = 1 := by
    rw [calculate_tf_idf_similarity]
    rw [if_neg (by simp [hA])]
    have hvne : (tokenize A ++ tokenize A).dedup ≠ [] := by
      simp [List.dedup_eq_nil, hA]
    rw [if_neg hvne]
    have hsub : ∀ w ∈ (tokenize A ++ tokenize A).dedup, w ∈ tokenize A := by
      intro w hw
      rcases List.mem_append.mp (List.mem_dedup.mp hw) with h | h <;> exact h
    have hms : 0 < magSq (tf_vector (tokenize A) ((tokenize A ++ tokenize A).dedup)) :=
      magSq_tf_pos hvne hsub
    have hvecne : tf_vector (tokenize A) ((tokenize A ++ tokenize A).dedup) ≠ [] := by
      simp [tf_vector, hvne]
    rw [cosine_similarity]
    rw [if_neg (by push_neg; exact ⟨hvecne, hvecne, rfl⟩)]
    have hsq : (0 : ℝ) < ((magSq (tf_vector (tokenize A) ((tokenize A ++ tokenize A).dedup)) : ℚ) : ℝ) := by
      exact_mod_cast hms
    have hsqrt : Real.sqrt ((magSq (tf_vector (tokenize A) ((tokenize A ++ tokenize A).dedup)) : ℚ) : ℝ) ≠ 0 := by
      exact ne_of_gt (Real.sqrt_pos.mpr hsq)
    rw [if_neg (by push_neg; exact ⟨hsqrt, hsqrt⟩)]
    have hdot : dotProd (tf_vector (tokenize A) ((tokenize A ++ tokenize A).dedup))
        (tf_vector (tokenize A) ((tokenize A ++ tokenize A).dedup))
        = magSq (tf_vector (tokenize A) ((tokenize A ++ tokenize A).dedup)) := by
      rw [dotProd_tf_vector, magSq_tf_vector]
    rw [hdot, Real.mul_self_sqrt (le_of_lt hsq)]
    exact div_self (ne_of_gt hsq)
  have hj : calculate_jaccard_similarity A A = 1 := by
    rw [calculate_jaccard_similarity]
    have hfs : (tokenize A).toFinset ≠ ∅ := by
      simp [List.toFinset_eq_empty_iff, hA]
    rw [if_neg (by simp [hfs])]
    rw [if_neg (by simp [Finset.union_self, hfs])]
    rw [Finset.union_self, Finset.inter_self]
    have hcard : ((tokenize A).toFinset.card : ℚ) ≠ 0 := by
      simp [Finset.card_eq_zero, hfs]
    exact div_self hcard
  rw [calculate_similarity, if_neg (by simp [hAe]), htf, hj]
  norm_num

/-- C5: for all texts A and B the combined score is symmetric, and the score
of any text against itself is 1 when its token list is non-empty. -/
theorem score_symm_and_self :
    (∀ A B : String, calculate_similarity A B = calculate_similarity B A) ∧
    (∀ A : String, tokenize A ≠ [] → calculate_similarity A A = 1) :=
  ⟨calculate_similarity_symm, fun _ hA => calculate_similarity_self hA⟩

/-- Witness for C5 at a concrete text. -/
theorem score_symm_and_self_witness :
    tokenize "red wallet" ≠ [] ∧ calculate_similarity "red wallet" "red wallet" = 1 :=
  ⟨by decide, score_symm_and_self.2 "red wallet" (by decide)⟩

/-- C1 counterexample: both inputs are the non-empty string "the", whose token
list is empty (a stop-word), yet the combined score is 0.3 rather than 0,
because the Jaccard measure is defined as 1 when both token sets are empty. -/
theorem score_empty_token_counterexample :
    ("the" : String) ≠ "" ∧ tokenize "the" = [] ∧
    calculate_similarity "the" "the" = 3 / 10 := by
  refine ⟨by decide, by decide, ?_⟩
  have ht : tokenize "the" = [] := by decide
  rw [calculate_similarity, if_neg (by simp)]
  rw [calculate_tf_idf_similarity, if_pos (Or.inl ht)]
  rw [calculate_jaccard_similarity, if_pos (by simp [ht])]
  norm_num

/-- C1 amended: the score is 0 when either input string is empty, and when
exactly one of the two token lists is empty; but when both inputs are
non-empty strings whose token lists are both empty, the score is 0.3. -/
theorem score_zero_on_empty_amended (t1 t2 : String) :
    (t1 = "" ∨ t2 = "" → calculate_similarity t1 t2 = 0) ∧
    (tokenize t1 = [] ∧ tokenize t2 ≠ [] → calculate_similarity t1 t2 = 0) ∧
    (tokenize t1 ≠ [] ∧ tokenize t2 = [] → calculate_similarity t1 t2 = 0) ∧
    (t1 ≠ "" ∧ t2 ≠ "" ∧ tokenize t1 = [] ∧ tokenize t2 = [] →
      calculate_similarity t1 t2 = 3 / 10) := by
  have key : ∀ s1 s2 : String, s1 ≠ "" → s2 ≠ "" → tokenize s1 = [] → tokenize s2 ≠ [] →
      calculate_similarity s1 s2 = 0 := by
    intro s1 s2 h1 h2 he hne
    rw [calculate_similarity, if_neg (by simp [h1, h2])]
    rw [calculate_tf_idf_similarity, if_pos (Or.inl he)]
    rw [calculate_jaccard_similarity]
    rw [if_neg (by simp [List.toFinset_eq_empty_iff, hne])]
    rw [if_neg (by simp [List.toFinset_eq_empty_iff, hne, he])]
    rw [he]
    simp
  refine ⟨?_, ?_, ?_, ?_⟩
  · intro h
    rw [calculate_similarity, if_pos h]
  · rintro ⟨he, hne⟩
    by_cases h1 : t1 = ""
    · rw [calculate_similarity, if_pos (Or.inl h1)]
    · exact key t1 t2 h1 (ne_empty_of_tokenize_ne_nil hne) he hne
  · rintro ⟨hne, he⟩
    by_cases h2 : t2 = ""
    · rw [calculate_similarity, if_pos (Or.inr h2)]
    · have := key t2 t1 h2 (ne_empty_of_tokenize_ne_nil hne) he hne
      calc calculate_similarity t1 t2
          = calculate_similarity t2 t1 := calculate_similarity_symm t1 t2
        _ = 0 := this
  · rintro ⟨h1, h2, he1, he2⟩
    rw [calculate_similarity, if_neg (by simp [h1, h2])]
    rw [calculate_tf_idf_similarity, if_pos (Or.inl he1)]
    rw [calculate_jaccard_similarity, if_pos (by simp [he1, he2])]
    norm_num

/-- Witness for the amended C1 at concrete inputs. -/
theorem score_zero_on_empty_amended_witness :
    calculate_similarity "ab" "dog" = 0 ∧ calculate_similarity "ab" "ab" = 3 / 10 :=
  ⟨(score_zero_on_empty_amended "ab" "dog").2.1 ⟨by decide, by decide⟩,
   (score_zero_on_empty_amended "ab" "ab").2.2.2 ⟨by decide, by decide, by decide, by decide⟩⟩

/-! ### Item text builder (SimpleNLPService.create_item_text) -/

/-- Python dict truthiness of an optional string field: present and non-empty. -/
def truthy : Option String → Bool
  | none => false
  | some s => !s.isEmpty

/-- Structured item fields handed to create_item_text (the item to_dict keys
the builder reads). -/
structure ItemData where
  title : String
  description : String
  category : Option String
  brand : Option String
  color : Option String
  condition : Option String
  lost_location : Option String
  found_location : Option String
deriving DecidableEq

/-- SimpleNLPService.create_item_text: concatenate present fields in the fixed
order title, description, category, brand, color, condition, then lost or
found location (lost wins when both are present), joined by single spaces.
Field markers carry no colon: the Python f-strings are of the form
"category {x}". -/
def create_item_text (d : ItemData) : String :=
  String.intercalate " "
    ((if !d.title.isEmpty then [d.title] else [])
     ++ (if !d.description.isEmpty then [d.description] else [])
     ++ (if truthy d.category then ["category " ++ d.category.getD ""] else [])
     ++ (if truthy d.brand then ["brand " ++ d.brand.getD ""] else [])
     ++ (if truthy d.color then ["color " ++ d.color.getD ""] else [])
     ++ (if truthy d.condition then ["condition " ++ d.condition.getD ""] else [])
     ++ (if truthy d.lost_location then ["lost at " ++ d.lost_location.getD ""]
         else if truthy d.found_location then ["found at " ++ d.found_location.getD ""]
         else []))

/-- Modelled from the spec: the item-text builder as the spec words it, with
colons in the field markers ("category: X", "brand: X", "color: X",
"condition: X", "lost at: X" / "found at: X"). Used only to compare the
spec sentence against the builder the scoring pipeline actually uses. -/
def create_item_text_speclike (d : ItemData) : String :=
  String.intercalate " "
    ((if !d.title.isEmpty then [d.title] else [])
     ++ (if !d.description.isEmpty then [d.description] else [])
     ++ (if truthy d.category then ["category: " ++ d.category.getD ""] else [])
     ++ (if truthy d.brand then ["brand: " ++ d.brand.getD ""] else [])
     ++ (if truthy d.color then ["color: " ++ d.color.getD ""] else [])
     ++ (if truthy d.condition then ["condition: " ++ d.condition.getD ""] else [])
     ++ (if truthy d.lost_location then ["lost at: " ++ d.lost_location.getD ""]
         else if truthy d.found_location then ["found at: " ++ d.found_location.getD ""]
         else []))

/-- Field list of the amended builder claim, written independently as one
optional part per field in the fixed order, absent fields omitted. -/
def item_text_fields (d : ItemData) : List (Option String) :=
  [if d.title.isEmpty then none else some d.title,
   if d.description.isEmpty then none else some d.description,
   if truthy d.category then some ("category " ++ d.category.getD "") else none,
   if truthy d.brand then some ("brand " ++ d.brand.getD "") else none,
   if truthy d.color then some ("color " ++ d.color.getD "") else none,
   if truthy d.condition then some ("condition " ++ d.condition.getD "") else none,
   if truthy d.lost_location then some ("lost at " ++ d.lost_location.getD "")
   else if truthy d.found_location then some ("found at " ++ d.found_location.getD "")
   else none]

/-- C6 counterexample: for an item whose only present field is the category
"bag", the builder that feeds the scorer produces "category bag", not the
spec's colon form "category: bag". -/
theorem item_text_colon_counterexample :
    create_item_text ⟨"", "", some "bag", none, none, none, none, none⟩ = "category bag" ∧
    create_item_text_speclike ⟨"", "", some "bag", none, none, none, none, none⟩ = "category: bag" ∧
    create_item_text ⟨"", "", some "bag", none, none, none, none, none⟩
      ≠ create_item_text_speclike ⟨"", "", some "bag", none, none, none, none, none⟩ := by
  refine ⟨by decide, by decide, by decide⟩

/-- C6 amended: the builder concatenates exactly the present fields, in the
fixed order title, description, "category X", "brand X", "color X",
"condition X", "lost at X" or "found at X" (no colon after the field name),
omitting any absent field; and it is deterministic, so two calls on identical
item data yield identical text. -/
theorem create_item_text_amended :
    (∀ d : ItemData, create_item_text d
       = String.intercalate " " (item_text_fields d).reduceOption) ∧
    (∀ d1 d2 : ItemData, d1 = d2 → create_item_text d1 = create_item_text d2) := by
  constructor
  · intro d
    rw [create_item_text, item_text_fields]
    rcases d with ⟨t, de, c, b, co, cond, ll, fl⟩
    simp only
    by_cases ht : t.isEmpty <;>
      by_cases hd : de.isEmpty <;>
        by_cases hc : truthy c <;>
          by_cases hb : truthy b <;>
            simp [ht, hd, hc, hb, List.reduceOption] <;>
              by_cases hco : truthy co <;>
                by_cases hcond : truthy cond <;>
                  by_cases hll : truthy ll <;>
                    by_cases hfl : truthy fl <;>
                      simp [hco, hcond, hll, hfl, List.reduceOption]
  · intro d1 d2 h
    rw [h]

/-- Witness for the determinism half of the amended C6. -/
theorem create_item_text_amended_witness :
    create_item_text ⟨"Wallet", "black leather", some "accessories", none, some "black", none, some "park", none⟩
      = create_item_text ⟨"Wallet", "black leather", some "accessories", none, some "black", none, some "park", none⟩ :=
  create_item_text_amended.2 _ _ rfl

/-! ### Item records (models.py LostItem / FoundItem) and the metadata filter
(SimpleMatchingService) -/

/-- LostItem row fields read by this subsystem. Dates are modelled as day
numbers (datetime.date ordering and day differences are integer ordering and
subtraction); Option models SQL NULL for nullable columns and the service
guard on missing values. -/
structure LostItem where
  id : Nat
  user_id : Nat
  title : String
  description : String
  category : Option String
  color : Option String
  brand : Option String
  image_url : Option String
  lost_location : Option String
  lost_date : Option Int
  status : String
deriving DecidableEq

/-- FoundItem row fields read by this subsystem. -/
structure FoundItem where
  id : Nat
  user_id : Nat
  title : String
  description : String
  category : Option String
  color : Option String
  brand : Option String
  image_url : Option String
  found_location : Option String
  found_date : Option Int
  condition : Option String
  status : String
deriving DecidableEq

/-- The to_dict fields of a lost item handed to create_item_text. -/
def LostItem.to_item_data (i : LostItem) : ItemData :=
  ⟨i.title, i.description, i.category, i.brand, i.color, none, i.lost_location, none⟩

/-- The to_dict fields of a found item handed to create_item_text. -/
def FoundItem.to_item_data (i : FoundItem) : ItemData :=
  ⟨i.title, i.description, i.category, i.brand, i.color, i.condition, none, i.found_location⟩

/-- Color affinity groups of
SimpleMatchingService._calculate_color_similarity. -/
def color_groups : List (List String) :=
  [["red", "burgundy", "crimson", "scarlet"],
   ["blue", "navy", "azure", "cyan"],
   ["green", "emerald", "lime", "olive"],
   ["yellow", "gold", "amber"],
   ["black", "dark", "charcoal"],
   ["white", "cream", "ivory"],
   ["gray", "grey", "silver"],
   ["brown", "tan", "beige", "khaki"],
   ["purple", "violet", "magenta"],
   ["orange", "coral", "peach"]]

/-- Python str.lower, character by character. -/
def strLower (s : String) : String :=
  String.mk (s.toList.map Char.toLower)

/-- Python str.strip: drop leading and trailing whitespace. -/
def strTrim (s : String) : String :=
  String.mk ((((s.toList.dropWhile (fun c => c.isWhitespace)).reverse.dropWhile
    (fun c => c.isWhitespace)).reverse))

/-- SimpleMatchingService._calculate_color_similarity: lowercase and strip both
colors; 1.0 when equal, 0.8 when some affinity group contains both, else
0.0. -/
def calculate_color_similarity (color1 color2 : String) : ℚ :=
  if strTrim (strLower color1) = strTrim (strLower color2) then 1
  else if color_groups.any (fun g =>
      g.contains (strTrim (strLower color1)) && g.contains (strTrim (strLower color2))) then 8 / 10
  else 0

/-- Python substring test a in b, as character-run containment. -/
def isSubstring (a b : String) : Bool :=
  b.toList.tails.any (fun t => a.toList.isPrefixOf t)

open Classical in
/-- SimpleMatchingService._calculate_location_similarity: 0.5 when either
location is missing or empty, 1.0 on case-insensitive stripped equality, 0.8
when one contains the other, else the text similarity of the two raw
(lowercased, stripped) location strings. -/
noncomputable def calculate_location_similarity (location1 location2 : Option String) : ℝ :=
  if !truthy location1 || !truthy location2 then 1 / 2
  else if strTrim (strLower (location1.getD "")) = strTrim (strLower (location2.getD "")) then 1
  else if isSubstring (strTrim (strLower (location1.getD ""))) (strTrim (strLower (location2.getD "")))
          || isSubstring (strTrim (strLower (location2.getD ""))) (strTrim (strLower (location1.getD ""))) then 8 / 10
  else calculate_similarity (strTrim (strLower (location1.getD "")))
    (strTrim (strLower (location2.getD "")))

/-- SimpleMatchingService._passes_metadata_filter, written as the conjunction
of the negations of its early-return conditions: the pair passes iff no
single check rejects it. -/
def passes_metadata_filter (threshold : ℝ) (lost : LostItem) (found : FoundItem)
    (similarity : ℝ) : Prop :=
  ¬ (similarity < threshold) ∧
  (truthy lost.category = true → truthy found.category = true →
    strLower (lost.category.getD "") = strLower (found.category.getD "")) ∧
  (truthy lost.color = true → truthy found.color = true →
    strLower (lost.color.getD "") ≠ strLower (found.color.getD "") →
    ¬ (calculate_color_similarity (lost.color.getD "") (found.color.getD "") < 5 / 10)) ∧
  (∀ dl df : Int, lost.lost_date = some dl → found.found_date = some df →
    ¬ (df < dl) ∧ ¬ (df - dl > 365)) ∧
  ¬ (calculate_location_similarity lost.lost_location found.found_location < 3 / 10)

/-! ### Date and color checks of the metadata filter (C7, C8) -/

/-- C7: when both items carry dates the filter rejects, regardless of the
similarity score, whenever the found date precedes the lost date or the gap
exceeds 365 days; in particular one day before and 366 days after are
rejected, while 364 days after passes whenever every other check passes. -/
theorem date_filter_checks (threshold : ℝ) (lost : LostItem) (found : FoundItem)
    (similarity : ℝ) (dl df : Int)
    (hl : lost.lost_date = some dl) (hf : found.found_date = some df) :
    (df < dl → ¬ passes_metadata_filter threshold lost found similarity) ∧
    (df - dl > 365 → ¬ passes_metadata_filter threshold lost found similarity) ∧
    (df = dl - 1 → ¬ passes_metadata_filter threshold lost found similarity) ∧
    (df = dl + 366 → ¬ passes_metadata_filter threshold lost found similarity) ∧
    (df = dl + 364 →
      ¬ (similarity < threshold) →
      (truthy lost.category = true → truthy found.category = true →
        strLower (lost.category.getD "") = strLower (found.category.getD "")) →
      (truthy lost.color = true → truthy found.color = true →
        strLower (lost.color.getD "") ≠ strLower (found.color.getD "") →
        ¬ (calculate_color_similarity (lost.color.getD "") (found.color.getD "") < 5 / 10)) →
      ¬ (calculate_location_similarity lost.lost_location found.found_location < 3 / 10) →
      passes_metadata_filter threshold lost found similarity) := by
  refine ⟨?_, ?_, ?_, ?_, ?_⟩
  · intro hlt hpass
    exact (hpass.2.2.2.1 dl df hl hf).1 hlt
  · intro hgap hpass
    exact (hpass.2.2.2.1 dl df hl hf).2 hgap
  · intro he hpass
    exact (hpass.2.2.2.1 dl df hl hf).1 (by omega)
  · intro he hpass
    exact (hpass.2.2.2.1 dl df hl hf).2 (by omega)
  · intro he hsim hcat hcol hloc
    refine ⟨hsim, hcat, hcol, ?_, hloc⟩
    intro dl' df' hl' hf'
    rw [hl] at hl'
    rw [hf] at hf'
    cases hl'
    cases hf'
    omega

/-- Witness for C7: a concrete pair 364 days apart with every other check
passing is accepted by the filter. -/
theorem date_filter_checks_witness :
    passes_metadata_filter 0
      ⟨1, 1, "", "", none, none, none, none, none, some 0, "active"⟩
      ⟨2, 2, "", "", none, none, none, none, none, some 364, none, "available"⟩ 0 := by
  refine (date_filter_checks 0 _ _ 0 0 364 rfl rfl).2.2.2.2 rfl (lt_irrefl 0) ?_ ?_ ?_
  · intro h
    simp [truthy] at h
  · intro h
    simp [truthy] at h
  · rw [calculate_location_similarity]
    rw [if_pos (by decide)]
    norm_num

/-- C8 counterexample: the lost color "navy " and the found color "navy" are
unequal case-insensitively (the trailing space survives lowercasing), yet the
color compatibility is 1.0 — neither 0.8 nor 0.0 — because the code strips
whitespace before comparing. -/
theorem color_filter_counterexample :
    strLower "navy " ≠ strLower "navy" ∧
    ¬ ("navy " : String).isEmpty ∧ ¬ ("navy" : String).isEmpty ∧
    calculate_color_similarity "navy " "navy" = 1 ∧
    calculate_color_similarity "navy " "navy" ≠ 8 / 10 ∧
    calculate_color_similarity "navy " "navy" ≠ 0 := by
  have h1 : calculate_color_similarity "navy " "navy" = 1 := by
    rw [calculate_color_similarity, if_pos (by decide)]
  refine ⟨by decide, by decide, by decide, h1, ?_, ?_⟩
  · rw [h1]
    norm_num
  · rw [h1]
    norm_num

/-- C8 amended: for items that both specify a color, unequal after lowercasing
and stripping whitespace, the compatibility (computed on the stripped
lowercased colors) is 0.8 when some affinity group holds both and 0.0
otherwise; the filter rejects whenever the compatibility is below 0.5, and
when it is at least 0.5 the pair passes exactly when the remaining checks
pass; navy/blue is at least 0.5 and red/green is 0. -/
theorem color_filter_checks (threshold : ℝ) (lost : LostItem) (found : FoundItem)
    (similarity : ℝ) (c1 c2 : String)
    (hc1 : lost.color = some c1) (hc2 : found.color = some c2)
    (ht1 : c1.isEmpty = false) (ht2 : c2.isEmpty = false)
    (hne : strTrim (strLower c1) ≠ strTrim (strLower c2)) :
    ((color_groups.any (fun g =>
        g.contains (strTrim (strLower c1)) && g.contains (strTrim (strLower c2)))) = true →
      calculate_color_similarity c1 c2 = 8 / 10) ∧
    ((color_groups.any (fun g =>
        g.contains (strTrim (strLower c1)) && g.contains (strTrim (strLower c2)))) = false →
      calculate_color_similarity c1 c2 = 0) ∧
    (calculate_color_similarity c1 c2 < 5 / 10 →
      ¬ passes_metadata_filter threshold lost found similarity) ∧
    (¬ (calculate_color_similarity c1 c2 < 5 / 10) →
      (passes_metadata_filter threshold lost found similarity ↔
        (¬ (similarity < threshold) ∧
         (truthy lost.category = true → truthy found.category = true →
           strLower (lost.category.getD "") = strLower (found.category.getD "")) ∧
         (∀ dl df : Int, lost.lost_date = some dl → found.found_date = some df →
           ¬ (df < dl) ∧ ¬ (df - dl > 365)) ∧
         ¬ (calculate_location_similarity lost.lost_location found.found_location < 3 / 10)))) ∧
    calculate_color_similarity "navy" "blue" = 8 / 10 ∧
    ¬ ((5 : ℚ) / 10 > calculate_color_similarity "navy" "blue") ∧
    calculate_color_similarity "red" "green" = 0 := by
  have hlowne : strLower c1 ≠ strLower c2 := by
    intro h
    exact hne (by rw [h])
  have hnavy : calculate_color_similarity "navy" "blue" = 8 / 10 := by
    rw [calculate_color_similarity, if_neg (by decide), if_pos (by decide)]
  refine ⟨?_, ?_, ?_, ?_, hnavy, ?_, ?_⟩
  · intro hg
    rw [calculate_color_similarity, if_neg hne, if_pos hg]
  · intro hg
    rw [calculate_color_similarity, if_neg hne, hg]
    simp
  · intro hlt hpass
    have := hpass.2.2.1
    rw [hc1, hc2] at this
    exact this (by simp [truthy, ht1]) (by simp [truthy, ht2])
      (by simpa using hlowne) (by simpa using hlt)
  · intro hge
    constructor
    · intro hpass
      exact ⟨hpass.1, hpass.2.1, hpass.2.2.2.1, hpass.2.2.2.2⟩
    · intro hrest
      refine ⟨hrest.1, hrest.2.1, ?_, hrest.2.2.1, hrest.2.2.2⟩
      intro _ _ _
      rw [hc1, hc2]
      simpa using hge
  · rw [hnavy]
    norm_num
  · rw [calculate_color_similarity, if_neg (by decide), if_neg (by decide)]

/-- Witness for the amended C8: a concrete cross-group pair (red vs green) is
rejected by the filter. -/
theorem color_filter_checks_witness :
    ¬ passes_metadata_filter 0
      ⟨1, 1, "", "", none, some "red", none, none, none, none, "active"⟩
      ⟨2, 2, "", "", none, some "green", none, none, none, none, none, "available"⟩ 1 := by
  refine (color_filter_checks 0 _ _ 1 "red" "green" rfl rfl (by decide) (by decide)
    (by decide)).2.2.1 ?_
  rw [calculate_color_similarity, if_neg (by decide), if_neg (by decide)]
  norm_num

/-! ### Claim Challenge Engine (app.py initiate_claim / verify_claim) -/

/-- One challenge option of the options_json array: opaque id, label, image. -/
structure ChallengeOption where
  oid : String
  label : String
  image_url : String
deriving DecidableEq

/-- A distractor-pool entry as read by initiate_claim: item identity (the
database row, used for set-deduplication) plus its image. -/
structure DistractorItem where
  did : Nat
  image_url : String
deriving DecidableEq

/-- The distractor-pool widening of initiate_claim: when fewer than 3
same-category items exist, fall back to the deduplicated union with every
other item carrying an image. -/
def widen_pool (same_cat extra : List DistractorItem) : List DistractorItem :=
  if same_cat.length < 3 then (same_cat ++ extra).dedup else same_cat

/-- The labels assigned to distractor options, by position. -/
def distractor_labels : List String :=
  ["Option B", "Option C", "Option D"]

/-- The option list built by initiate_claim before the final shuffle: the
correct option (the target's image, label "Option A", a fresh id) followed by
one option per sampled distractor. The uuid4 ids are injected as
parameters. -/
def build_claim_options (correct_id target_image : String)
    (distractor_ids : List String) (sampled : List DistractorItem) : List ChallengeOption :=
  ⟨correct_id, "Option A", target_image⟩ ::
    ((distractor_ids.zip distractor_labels).zip sampled).map
      (fun p => ⟨p.1.1, p.1.2, p.2.image_url⟩)

/-- The import list of the app.py module (its import statements at lines
1-23 and 98): the names that module-level code can resolve. -/
def app_py_imports : List String :=
  ["flask", "flask_cors", "datetime", "os", "uuid", "random",
   "werkzeug.utils", "dotenv", "bcrypt", "jwt", "functools", "sys",
   "models.models", "services.simple_matching_service", "sqlite3"]

/-- The persistence step of initiate_claim: after the option list is built
and shuffled, the handler constructs the Claim row, evaluating
json.dumps(options) for the options_json column. The name json is resolved
against the imports of app.py; when it is absent the expression raises
NameError, the Claim constructor never returns, and the post-shuffle
correct-id binding loop that follows it never runs. -/
def initiate_claim_persist (options : List ChallengeOption) :
    Except String (List ChallengeOption) :=
  if "json" ∈ app_py_imports then Except.ok options
  else Except.error "NameError: name json is not defined"

/-- C2: the claim states the intended challenge invariant, but the code is
broken before any ClaimRecord exists: app.py never imports json, so every
initiate_claim call that passes the image check raises NameError at the
json.dumps call, produces no ClaimRecord, and never binds
correct_option_id. Evaluated at the failing input of the claim: a target
with an image and three same-category distractors with images, identity
shuffle. -/
theorem initiate_claim_json_name_error :
    initiate_claim_persist (build_claim_options "cid" "img" ["d1", "d2", "d3"]
        (([⟨1, "b"⟩, ⟨2, "c"⟩, ⟨3, "d"⟩] : List DistractorItem).take 3))
      = Except.error "NameError: name json is not defined" := by
  rfl

/-- Stored claim row (models.py Claim) with the options array decoded. -/
structure ClaimRec where
  id : Nat
  claimant_user_id : Nat
  target_type : String
  target_item_id : Nat
  options : List ChallengeOption
  correct_option_id : String
  status : String
  attempts : Nat
deriving DecidableEq

/-- Error outcomes of verify_claim: the 400 on missing parameters, the 404 on
an unknown claim, the 403 on a foreign claimant. -/
inductive ClaimError
  | validation
  | notFound
  | authorization
deriving DecidableEq

/-- app.py verify_claim: parameter check, lookup, claimant check, then
increment attempts and set the status fresh from the submitted answer. The
result pairs the response (or error) with the resulting claim table; on any
error the table is unchanged. Ids are the (positive) database keys, so the
Python falsiness test on claim_id is the test against 0 and the one on
selected_option_id the test against the empty string. -/
def verify_claim (claims : List ClaimRec) (current_user_id claim_id : Nat)
    (selected_option_id : String) : (Except ClaimError (String × ClaimRec)) × List ClaimRec :=
  if claim_id = 0 ∨ selected_option_id = "" then (Except.error ClaimError.validation, claims)
  else
    match claims.find? (fun c => c.id == claim_id) with
    | none => (Except.error ClaimError.notFound, claims)
    | some c =>
      if c.claimant_user_id ≠ current_user_id then (Except.error ClaimError.authorization, claims)
      else
        ((Except.ok ((if selected_option_id = c.correct_option_id then "correct" else "incorrect"),
          { c with attempts := c.attempts + 1,
                   status := if selected_option_id = c.correct_option_id then "passed" else "failed" })),
         claims.map (fun x => if x.id == claim_id then
          { c with attempts := c.attempts + 1,
                   status := if selected_option_id = c.correct_option_id then "passed" else "failed" } else x))

/-- C3: verify fails with NotFoundError on an absent claim id; fails with
AuthorizationError, leaving the claim table untouched, when the acting user is
not the claimant; and for the claimant it increments attempts by exactly one
and sets the status to passed or failed purely from the submitted answer,
whatever the prior status was, leaving every other field of the record
unchanged. -/
theorem verify_claim_checks (claims : List ClaimRec) (uid cid : Nat) (sel : String)
    (hcid : cid ≠ 0) (hsel : sel ≠ "") :
    ((∀ c ∈ claims, c.id ≠ cid) →
      verify_claim claims uid cid sel = (Except.error ClaimError.notFound, claims)) ∧
    (∀ c, claims.find? (fun x => x.id == cid) = some c → c.claimant_user_id ≠ uid →
      verify_claim claims uid cid sel = (Except.error ClaimError.authorization, claims)) ∧
    (∀ c, claims.find? (fun x => x.id == cid) = some c → c.claimant_user_id = uid →
      ∃ c', verify_claim claims uid cid sel =
          (Except.ok ((if sel = c.correct_option_id then "correct" else "incorrect"), c'),
           claims.map (fun x => if x.id == cid then c' else x)) ∧
        c'.attempts = c.attempts + 1 ∧
        (sel = c.correct_option_id → c'.status = "passed") ∧
        (sel ≠ c.correct_option_id → c'.status = "failed") ∧
        c'.id = c.id ∧ c'.claimant_user_id = c.claimant_user_id ∧
        c'.target_type = c.target_type ∧ c'.target_item_id = c.target_item_id ∧
        c'.options = c.options ∧ c'.correct_option_id = c.correct_option_id) := by
  have hguard : ¬ (cid = 0 ∨ sel = "") := by
    rintro (h | h)
    · exact hcid h
    · exact hsel h
  refine ⟨?_, ?_, ?_⟩
  · intro habs
    have hnone : claims.find? (fun c => c.id == cid) = none := by
      rw [List.find?_eq_none]
      intro x hx
      simpa using habs x hx
    simp only [verify_claim, if_neg hguard, hnone]
  · intro c hfind hne
    simp only [verify_claim, if_neg hguard, hfind]
    rw [if_pos hne]
  · intro c hfind heq
    refine ⟨⟨c.id, c.claimant_user_id, c.target_type, c.target_item_id, c.options,
      c.correct_option_id, (if sel = c.correct_option_id then "passed" else "failed"),
      c.attempts + 1⟩, ?_, ?_⟩
    · simp only [verify_claim, if_neg hguard, hfind]
      rw [if_neg (by simp [heq])]
    · refine ⟨rfl, ?_, ?_, rfl, rfl, rfl, rfl, rfl, rfl⟩
      · intro h
        simp [h]
      · intro h
        simp [h]

/-- Witness for C3: a previously failed claim, re-verified by its claimant
with the correct option, moves to passed with the attempt counter bumped from
2 to 3. -/
theorem verify_claim_checks_witness :
    (verify_claim [⟨5, 7, "found", 9, [], "opt1", "failed", 2⟩] 7 5 "opt1").1
      = Except.ok ("correct", ⟨5, 7, "found", 9, [], "opt1", "passed", 3⟩) := by
  obtain ⟨c', heq, hatt, hpass, _, hid, hcl, htt, hti, hopt, hcor⟩ :=
    (verify_claim_checks [⟨5, 7, "found", 9, [], "opt1", "failed", 2⟩] 7 5 "opt1"
      (by decide) (by decide)).2.2 ⟨5, 7, "found", 9, [], "opt1", "failed", 2⟩ rfl rfl
  have hc' : c' = ⟨5, 7, "found", 9, [], "opt1", "passed", 3⟩ := by
    rcases c' with ⟨a, b, t, ti, o, co, st, at'⟩
    simp only at hid hcl htt hti hopt hcor hatt
    have hst : st = "passed" := hpass rfl
    simp_all
  have h1 := congrArg Prod.fst heq
  simp only at h1
  rw [h1, hc']
  rfl

/-- C10: a claimant submitting an answer that appears nowhere in the claim's
option list gets no validation error: the submission is accepted, attempts
grow by one, and the status becomes failed, exactly as for a listed wrong
option. (The option list of any claim built by initiate_claim contains its
correct_option_id, which is the record invariant assumed here.) -/
theorem verify_unlisted_option (claims : List ClaimRec) (uid cid : Nat) (sel : String)
    (c : ClaimRec)
    (hcid : cid ≠ 0) (hsel : sel ≠ "")
    (hfind : claims.find? (fun x => x.id == cid) = some c)
    (hclaimant : c.claimant_user_id = uid)
    (hnotlisted : sel ∉ c.options.map (fun o => o.oid))
    (hinv : c.correct_option_id ∈ c.options.map (fun o => o.oid)) :
    verify_claim claims uid cid sel =
      (Except.ok ("incorrect",
        { c with attempts := c.attempts + 1, status := "failed" }),
       claims.map (fun x => if x.id == cid then
        { c with attempts := c.attempts + 1, status := "failed" } else x)) := by
  have hne : sel ≠ c.correct_option_id := by
    intro h
    rw [h] at hnotlisted
    exact hnotlisted hinv
  simp only [verify_claim,
    if_neg (show ¬ (cid = 0 ∨ sel = "") by rintro (h | h) <;> [exact hcid h; exact hsel h]),
    hfind]
  rw [if_neg (by simp [hclaimant])]
  simp [hne]

/-- Witness for C10 at a concrete claim store. -/
theorem verify_unlisted_option_witness :
    (verify_claim [⟨5, 7, "found", 9, [⟨"a", "Option A", "img"⟩], "a", "pending", 0⟩]
      7 5 "zzz").1
      = Except.ok ("incorrect", ⟨5, 7, "found", 9, [⟨"a", "Option A", "img"⟩], "a", "failed", 1⟩) := by
  have h := verify_unlisted_option
    [⟨5, 7, "found", 9, [⟨"a", "Option A", "img"⟩], "a", "pending", 0⟩] 7 5 "zzz"
    ⟨5, 7, "found", 9, [⟨"a", "Option A", "img"⟩], "a", "pending", 0⟩
    (by decide) (by decide) rfl rfl (by decide) (by decide)
  have h1 := congrArg Prod.fst h
  simpa using h1

/-! ### Match Lifecycle Manager (simple_matching_service.py, app_backup.py) -/

/-- Match row (models.py Match). New rows are created with status pending;
the storage-assigned primary key is irrelevant to the pair-uniqueness claims
and is modelled as 0 for fresh rows. -/
structure MatchRec where
  id : Nat
  lost_item_id : Nat
  found_item_id : Nat
  similarity_score : ℝ
  status : String

/-- The persistent store visible to this subsystem: the three tables. -/
structure AppState where
  lost_items : List LostItem
  found_items : List FoundItem
  match_records : List MatchRec

open Classical in
/-- SimpleMatchingService.find_matches_for_lost_item: score the lost item
against every available found item of another user, keep the pairs passing
the metadata filter, sort by descending score (stable), truncate. -/
noncomputable def find_matches_for_lost_item (threshold : ℝ) (st : AppState) (item : LostItem)
    (limit : Nat) : List (FoundItem × ℝ) :=
  ((((st.found_items.filter (fun f => f.status == "available")).filter
      (fun f => !(f.user_id == item.user_id))).map
    (fun f => (f, calculate_similarity (create_item_text item.to_item_data)
      (create_item_text f.to_item_data)))).filter
    (fun p => decide (passes_metadata_filter threshold item p.1 p.2))).mergeSort
      (fun a b => decide (b.2 ≤ a.2)) |>.take limit

open Classical in
/-- SimpleMatchingService.find_matches_for_found_item: the mirror image over
active lost items. -/
noncomputable def find_matches_for_found_item (threshold : ℝ) (st : AppState) (item : FoundItem)
    (limit : Nat) : List (LostItem × ℝ) :=
  ((((st.lost_items.filter (fun l => l.status == "active")).filter
      (fun l => !(l.user_id == item.user_id))).map
    (fun l => (l, calculate_similarity (create_item_text item.to_item_data)
      (create_item_text l.to_item_data)))).filter
    (fun p => decide (passes_metadata_filter threshold p.1 item p.2))).mergeSort
      (fun a b => decide (b.2 ≤ a.2)) |>.take limit

/-- One iteration of the creation loop of create_matches_for_item: query the
match table (the session view, so rows added earlier in the same call are
visible) for the (lost, found) pair, and insert a fresh pending row only when
none exists. The accumulator pairs the rows created by this call with the
full table. -/
def add_match (acc : List MatchRec × List MatchRec) (lost_id found_id : Nat)
    (score : ℝ) : List MatchRec × List MatchRec :=
  if (acc.2.find? (fun m => m.lost_item_id == lost_id && m.found_item_id == found_id)).isSome then
    acc
  else
    (acc.1 ++ [⟨0, lost_id, found_id, score, "pending"⟩],
     acc.2 ++ [⟨0, lost_id, found_id, score, "pending"⟩])

/-- SimpleMatchingService.create_matches_for_item, lost branch: returns the
newly created rows and the resulting store. -/
noncomputable def create_matches_for_lost_item (threshold : ℝ) (st : AppState) (item : LostItem) :
    List MatchRec × AppState :=
  (((find_matches_for_lost_item threshold st item 10).foldl
      (fun acc p => add_match acc item.id p.1.id p.2) ([], st.match_records)).1,
   ⟨st.lost_items, st.found_items,
    ((find_matches_for_lost_item threshold st item 10).foldl
      (fun acc p => add_match acc item.id p.1.id p.2) ([], st.match_records)).2⟩)

/-- SimpleMatchingService.create_matches_for_item, found branch. -/
noncomputable def create_matches_for_found_item (threshold : ℝ) (st : AppState) (item : FoundItem) :
    List MatchRec × AppState :=
  (((find_matches_for_found_item threshold st item 10).foldl
      (fun acc p => add_match acc p.1.id item.id p.2) ([], st.match_records)).1,
   ⟨st.lost_items, st.found_items,
    ((find_matches_for_found_item threshold st item 10).foldl
      (fun acc p => add_match acc p.1.id item.id p.2) ([], st.match_records)).2⟩)

/-- Error outcomes of the confirm/reject endpoints: 404 and 403. -/
inductive MatchError
  | notFound
  | authorization
deriving DecidableEq

/-- app_backup.py confirm_match: ownership of either referenced item is
required; on success the match becomes confirmed and both items matched. -/
def confirm_match (st : AppState) (match_id current_user_id : Nat) : Except MatchError AppState :=
  match st.match_records.find? (fun m => m.id == match_id) with
  | none => Except.error MatchError.notFound
  | some m =>
    if (st.lost_items.find? (fun i => i.id == m.lost_item_id)).map (fun i => i.user_id)
          ≠ some current_user_id
       ∧ (st.found_items.find? (fun i => i.id == m.found_item_id)).map (fun i => i.user_id)
          ≠ some current_user_id then
      Except.error MatchError.authorization
    else
      Except.ok ⟨st.lost_items.map (fun i => if i.id == m.lost_item_id then
          { i with status := "matched" } else i),
        st.found_items.map (fun i => if i.id == m.found_item_id then
          { i with status := "matched" } else i),
        st.match_records.map (fun x => if x.id == match_id then
          { x with status := "confirmed" } else x)⟩

/-- app_backup.py reject_match: same ownership check; only the match status
changes. -/
def reject_match (st : AppState) (match_id current_user_id : Nat) : Except MatchError AppState :=
  match st.match_records.find? (fun m => m.id == match_id) with
  | none => Except.error MatchError.notFound
  | some m =>
    if (st.lost_items.find? (fun i => i.id == m.lost_item_id)).map (fun i => i.user_id)
          ≠ some current_user_id
       ∧ (st.found_items.find? (fun i => i.id == m.found_item_id)).map (fun i => i.user_id)
          ≠ some current_user_id then
      Except.error MatchError.authorization
    else
      Except.ok ⟨st.lost_items, st.found_items,
        st.match_records.map (fun x => if x.id == match_id then
          { x with status := "rejected" } else x)⟩

/-- The (lost, found) pair references of a match table. -/
def matchPairs (ms : List MatchRec) : List (Nat × Nat) :=
  ms.map (fun m => (m.lost_item_id, m.found_item_id))

/-- At most one match row per (lost, found) pair. -/
def PairUnique (ms : List MatchRec) : Prop :=
  (matchPairs ms).Nodup

/-- One operation of the Match Lifecycle Manager. -/
inductive MatchStep : AppState → AppState → Prop
  | createLost (st : AppState) (threshold : ℝ) (item : LostItem) :
      MatchStep st (create_matches_for_lost_item threshold st item).2
  | createFound (st : AppState) (threshold : ℝ) (item : FoundItem) :
      MatchStep st (create_matches_for_found_item threshold st item).2
  | confirm (st st' : AppState) (mid uid : Nat) :
      confirm_match st mid uid = Except.ok st' → MatchStep st st'
  | reject (st st' : AppState) (mid uid : Nat) :
      reject_match st mid uid = Except.ok st' → MatchStep st st'

/-- Reachability through the lifecycle operations. -/
inductive ReachableState : AppState → AppState → Prop
  | refl (st : AppState) : ReachableState st st
  | tail {st t u : AppState} : ReachableState st t → MatchStep t u → ReachableState st u

theorem find_pair_isSome (ms : List MatchRec) (lid fid : Nat) :
    (ms.find? (fun m => m.lost_item_id == lid && m.found_item_id == fid)).isSome = true
      ↔ (lid, fid) ∈ matchPairs ms := by
  rw [List.find?_isSome]
  constructor
  · rintro ⟨m, hm, hp⟩
    simp only [Bool.and_eq_true, beq_iff_eq] at hp
    exact List.mem_map.mpr ⟨m, hm, by simp [hp.1, hp.2]⟩
  · intro h
    rcases List.mem_map.mp h with ⟨m, hm, he⟩
    refine ⟨m, hm, ?_⟩
    simp only [Prod.mk.injEq] at he
    simp [he.1, he.2]

theorem add_match_nodup (acc : List MatchRec × List MatchRec) (lid fid : Nat) (s : ℝ)
    (h : PairUnique acc.2) : PairUnique (add_match acc lid fid s).2 := by
  rw [add_match]
  by_cases hex : (acc.2.find? (fun m => m.lost_item_id == lid && m.found_item_id == fid)).isSome = true
  · rw [if_pos hex]
    exact h
  · rw [if_neg hex]
    have hnot : (lid, fid) ∉ matchPairs acc.2 := fun hc => hex ((find_pair_isSome _ _ _).mpr hc)
    simp only [PairUnique, matchPairs, List.map_append] at h ⊢
    rw [List.nodup_append]
    refine ⟨h, by simp, ?_⟩
    intro p hp
    simp only [List.map_cons, List.map_nil, List.mem_singleton]
    intro hq
    rw [hq] at hp
    exact hnot hp

theorem add_match_pairs_mono (acc : List MatchRec × List MatchRec) (lid fid : Nat) (s : ℝ)
    {pr : Nat × Nat} (h : pr ∈ matchPairs acc.2) : pr ∈ matchPairs (add_match acc lid fid s).2 := by
  rw [add_match]
  by_cases hex : (acc.2.find? (fun m => m.lost_item_id == lid && m.found_item_id == fid)).isSome = true
  · rw [if_pos hex]
    exact h
  · rw [if_neg hex]
    simp only [matchPairs, List.map_append, List.mem_append] at h ⊢
    exact Or.inl h

theorem add_match_pair_present (acc : List MatchRec × List MatchRec) (lid fid : Nat) (s : ℝ) :
    (lid, fid) ∈ matchPairs (add_match acc lid fid s).2 := by
  rw [add_match]
  by_cases hex : (acc.2.find? (fun m => m.lost_item_id == lid && m.found_item_id == fid)).isSome = true
  · rw [if_pos hex]
    exact (find_pair_isSome _ _ _).mp hex
  · rw [if_neg hex]
    simp [matchPairs, List.map_append]

theorem add_match_noop (acc : List MatchRec × List MatchRec) (lid fid : Nat) (s : ℝ)
    (h : (lid, fid) ∈ matchPairs acc.2) : add_match acc lid fid s = acc := by
  rw [add_match, if_pos ((find_pair_isSome _ _ _).mpr h)]

theorem foldl_add_match_nodup {γ : Type} (f g : γ → Nat) (s : γ → ℝ) (cands : List γ)
    (acc : List MatchRec × List MatchRec) (h : PairUnique acc.2) :
    PairUnique ((cands.foldl (fun a c => add_match a (f c) (g c) (s c)) acc)).2 := by
  induction cands generalizing acc with
  | nil => exact h
  | cons c cs ih => exact ih _ (add_match_nodup _ _ _ _ h)

theorem foldl_add_match_mono {γ : Type} (f g : γ → Nat) (s : γ → ℝ) (cands : List γ)
    (acc : List MatchRec × List MatchRec) {pr : Nat × Nat} (h : pr ∈ matchPairs acc.2) :
    pr ∈ matchPairs ((cands.foldl (fun a c => add_match a (f c) (g c) (s c)) acc)).2 := by
  induction cands generalizing acc with
  | nil => exact h
  | cons c cs ih => exact ih _ (add_match_pairs_mono _ _ _ _ h)

theorem foldl_add_match_complete {γ : Type} (f g : γ → Nat) (s : γ → ℝ) (cands : List γ)
    (acc : List MatchRec × List MatchRec) :
    ∀ c ∈ cands, (f c, g c) ∈ matchPairs ((cands.foldl
      (fun a c => add_match a (f c) (g c) (s c)) acc)).2 := by
  induction cands generalizing acc with
  | nil => simp
  | cons c cs ih =>
    intro x hx
    rcases List.mem_cons.mp hx with rfl | hx'
    · exact foldl_add_match_mono f g s cs _ (add_match_pair_present acc _ _ _)
    · exact ih _ x hx'

theorem foldl_add_match_noop {γ : Type} (f g : γ → Nat) (s : γ → ℝ) (cands : List γ)
    (acc : List MatchRec × List MatchRec)
    (h : ∀ c ∈ cands, (f c, g c) ∈ matchPairs acc.2) :
    cands.foldl (fun a c => add_match a (f c) (g c) (s c)) acc = acc := by
  induction cands with
  | nil => rfl
  | cons c cs ih =>
    rw [List.foldl_cons, add_match_noop _ _ _ _ (h c (List.mem_cons_self _ _))]
    exact ih (fun x hx => h x (List.mem_cons_of_mem _ hx))

theorem matchPairs_update_status (ms : List MatchRec) (mid : Nat) (s : String) :
    matchPairs (ms.map (fun x => if x.id == mid then { x with status := s } else x))
      = matchPairs ms := by
  simp only [matchPairs, List.map_map]
  refine List.map_congr_left ?_
  intro x _
  by_cases h : x.id = mid <;> simp [h]

theorem confirm_ok_match_records {st st' : AppState} {mid uid : Nat}
    (h : confirm_match st mid uid = Except.ok st') :
    ∃ m, st.match_records.find? (fun x => x.id == mid) = some m ∧
      st'.match_records = st.match_records.map (fun x => if x.id == mid then
        { x with status := "confirmed" } else x) := by
  rw [confirm_match] at h
  rcases hf : st.match_records.find? (fun x => x.id == mid) with _ | m
  · simp only [hf] at h
    exact (Except.noConfusion h)
  · simp only [hf] at h
    refine ⟨m, hf, ?_⟩
    split_ifs at h with hauth
    rw [← Except.ok.inj h]

theorem reject_ok_match_records {st st' : AppState} {mid uid : Nat}
    (h : reject_match st mid uid = Except.ok st') :
    ∃ m, st.match_records.find? (fun x => x.id == mid) = some m ∧
      st'.match_records = st.match_records.map (fun x => if x.id == mid then
        { x with status := "rejected" } else x) := by
  rw [reject_match] at h
  rcases hf : st.match_records.find? (fun x => x.id == mid) with _ | m
  · simp only [hf] at h
    exact (Except.noConfusion h)
  · simp only [hf] at h
    refine ⟨m, hf, ?_⟩
    split_ifs at h with hauth
    rw [← Except.ok.inj h]

/-- C4: in every state reachable through the match lifecycle operations from
a store satisfying the pair-uniqueness invariant, at most one match row
exists per (lost, found) pair; and a second createMatchesForItem call for the
same lost item against the unchanged pools creates no row and leaves the
match table identical. -/
theorem match_dedup_and_unique :
    (∀ st0 st : AppState, PairUnique st0.match_records → ReachableState st0 st →
      PairUnique st.match_records) ∧
    (∀ (threshold : ℝ) (st : AppState) (item : LostItem),
      (create_matches_for_lost_item threshold
        (create_matches_for_lost_item threshold st item).2 item).1 = [] ∧
      (create_matches_for_lost_item threshold
        (create_matches_for_lost_item threshold st item).2 item).2.match_records
        = (create_matches_for_lost_item threshold st item).2.match_records) := by
  constructor
  · intro st0 st h hr
    induction hr with
    | refl => exact h
    | tail _ hstep ih =>
      cases hstep with
      | createLost th it =>
        exact foldl_add_match_nodup (fun _ => it.id) (fun p : FoundItem × ℝ => p.1.id)
          (fun p : FoundItem × ℝ => p.2) _ _ ih
      | createFound th it =>
        exact foldl_add_match_nodup (fun p : LostItem × ℝ => p.1.id) (fun _ => it.id)
          (fun p : LostItem × ℝ => p.2) _ _ ih
      | confirm s' mid uid heq =>
        obtain ⟨m, _, hrec⟩ := confirm_ok_match_records heq
        rw [PairUnique, hrec, matchPairs_update_status]
        exact ih
      | reject s' mid uid heq =>
        obtain ⟨m, _, hrec⟩ := reject_ok_match_records heq
        rw [PairUnique, hrec, matchPairs_update_status]
        exact ih
  · intro threshold st item
    have hfind : find_matches_for_lost_item threshold
        ((create_matches_for_lost_item threshold st item).2) item 10
        = find_matches_for_lost_item threshold st item 10 := rfl
    have hcomplete : ∀ c ∈ find_matches_for_lost_item threshold st item 10,
        (item.id, c.1.id) ∈ matchPairs
          (create_matches_for_lost_item threshold st item).2.match_records := by
      intro c hc
      exact foldl_add_match_complete (fun _ => item.id) (fun p => p.1.id) (fun p => p.2)
        _ ([], st.match_records) c hc
    have hnoop : (find_matches_for_lost_item threshold st item 10).foldl
        (fun acc p => add_match acc item.id p.1.id p.2)
        ([], (create_matches_for_lost_item threshold st item).2.match_records)
        = ([], (create_matches_for_lost_item threshold st item).2.match_records) := by
      exact foldl_add_match_noop (fun _ => item.id) (fun p => p.1.id) (fun p => p.2)
        (find_matches_for_lost_item threshold st item 10)
        ([], (create_matches_for_lost_item threshold st item).2.match_records)
        (fun c hc => hcomplete c hc)
    constructor
    · show ((find_matches_for_lost_item threshold
          ((create_matches_for_lost_item threshold st item).2) item 10).foldl
          (fun acc p => add_match acc item.id p.1.id p.2)
          ([], (create_matches_for_lost_item threshold st item).2.match_records)).1 = []
      rw [hfind, hnoop]
    · show ((find_matches_for_lost_item threshold
          ((create_matches_for_lost_item threshold st item).2) item 10).foldl
          (fun acc p => add_match acc item.id p.1.id p.2)
          ([], (create_matches_for_lost_item threshold st item).2.match_records)).2
        = (create_matches_for_lost_item threshold st item).2.match_records
      rw [hfind, hnoop]

/-- Witness for C4: the empty store satisfies the invariant, and reflexive
reachability preserves it. -/
theorem match_dedup_and_unique_witness :
    PairUnique (AppState.mk [] [] []).match_records :=
  match_dedup_and_unique.1 (AppState.mk [] [] []) (AppState.mk [] [] [])
    (by simp [PairUnique, matchPairs]) (ReachableState.refl _)

/-- C9: for a match whose acting user owns the referenced lost or found item,
reject sets the match status to rejected and returns a store whose lost-item
and found-item tables are exactly the previous ones. -/
theorem reject_match_frame (st : AppState) (mid uid : Nat) (m : MatchRec)
    (hm : st.match_records.find? (fun x => x.id == mid) = some m)
    (hown : (st.lost_items.find? (fun i => i.id == m.lost_item_id)).map (fun i => i.user_id)
          = some uid
      ∨ (st.found_items.find? (fun i => i.id == m.found_item_id)).map (fun i => i.user_id)
          = some uid) :
    ∃ st', reject_match st mid uid = Except.ok st' ∧
      st'.lost_items = st.lost_items ∧
      st'.found_items = st.found_items ∧
      st'.match_records = st.match_records.map (fun x => if x.id == mid then
        { x with status := "rejected" } else x) ∧
      (∀ x ∈ st'.match_records, x.id = mid → x.status = "rejected") := by
  have hnauth : ¬ ((st.lost_items.find? (fun i => i.id == m.lost_item_id)).map
        (fun i => i.user_id) ≠ some uid
      ∧ (st.found_items.find? (fun i => i.id == m.found_item_id)).map
        (fun i => i.user_id) ≠ some uid) := by
    rintro ⟨h1, h2⟩
    rcases hown with h | h
    · exact h1 h
    · exact h2 h
  refine ⟨⟨st.lost_items, st.found_items,
    st.match_records.map (fun x => if x.id == mid then
      { x with status := "rejected" } else x)⟩, ?_, rfl, rfl, rfl, ?_⟩
  · rw [reject_match]
    rw [hm]
    dsimp only
    rw [if_neg hnauth]
  · intro x hx hid
    rcases List.mem_map.mp hx with ⟨y, _, rfl⟩
    by_cases hy : y.id = mid
    · simp [hy]
    · rw [if_neg (by simpa using hy)] at hid
      exact absurd hid hy

/-- Witness for C9 at a concrete store: the lost item's owner rejects a
pending match. -/
theorem reject_match_frame_witness :
    ∃ st', reject_match
        (AppState.mk [⟨1, 10, "", "", none, none, none, none, none, none, "active"⟩]
          [⟨2, 20, "", "", none, none, none, none, none, none, none, "available"⟩]
          [⟨7, 1, 2, 0, "pending"⟩]) 7 10 = Except.ok st' ∧
      st'.lost_items = [⟨1, 10, "", "", none, none, none, none, none, none, "active"⟩] ∧
      st'.found_items = [⟨2, 20, "", "", none, none, none, none, none, none, none, "available"⟩] ∧
      (∀ x ∈ st'.match_records, x.id = 7 → x.status = "rejected") := by
  obtain ⟨st', hok, hl, hf, _, hall⟩ := reject_match_frame
    (AppState.mk [⟨1, 10, "", "", none, none, none, none, none, none, "active"⟩]
      [⟨2, 20, "", "", none, none, none, none, none, none, none, "available"⟩]
      [⟨7, 1, 2, 0, "pending"⟩]) 7 10 ⟨7, 1, 2, 0, "pending"⟩ rfl (Or.inl rfl)
  exact ⟨st', hok, hl, hf, hall⟩

end LostFound
